import Mathlib

/-!
Verification development for the ODH (Oxygen Deficiency Hazard) analysis
program (`ODH_class.py`).  The probabilistic risk engine is embedded
shallowly: pure numeric routines become functions over `ℝ` (or `ℚ` where
the source only manipulates exact rational constants), the mutable
`odh_volume` object becomes an explicit state record, Python exceptions
become `Except String`, and the external fluid-property/flow library
(out of scope for the core, per its interface) is passed in as explicit
function parameters.
-/

namespace ODH

/-- Embedding of `odh_volume.PFD_system` (ODH_class.py lines 201-209):
total probability of an ODH system failure for a list of element failure
probabilities, computed as one minus the product of the non-failure
probabilities (the code multiplies `PFD_system_on` by `1-PFD` for each
element, starting from 1, and returns `1 - PFD_system_on`). -/
def PFD_system (System_fail_prob : List ℝ) : ℝ :=
  1 - System_fail_prob.foldl (fun acc PFD => acc * (1 - PFD)) 1

/-- Embedding of the interior branch formula of `odh_volume.fatality_prob`
(ODH_class.py line 217): `10**(6.6956-76.087*O2_conc)` with the hard-coded
constants of the source. -/
noncomputable def fatality_formula (O2_conc : ℝ) : ℝ :=
  (10 : ℝ) ^ (6.6956 - 76.087 * O2_conc)

/-- Embedding of `odh_volume.fatality_prob` (ODH_class.py lines 211-218):
0 above 18% oxygen, 1 at or below 8.8%, and the hard-coded log-linear
formula in between. -/
noncomputable def fatality_prob (O2_conc : ℝ) : ℝ :=
  if 0.18 ≤ O2_conc then 0
  else if O2_conc ≤ 0.088 then 1
  else fatality_formula O2_conc

/-- Embedding of `odh_volume.odh_class` (ODH_class.py lines 220-228):
`none` models the raised `Exception` for a fatality rate that is too
high; `some k` models returning class `k`. -/
noncomputable def odh_class (phi : ℝ) : Option ℕ :=
  if phi < 1e-7 then some 0
  else if phi < 1e-5 then some 1
  else if phi < 1e-3 then some 2
  else none

/-- C4: the accumulated fatality rate classifies as Class 0 exactly when
`phi < 1e-7`, Class 1 exactly when `1e-7 ≤ phi < 1e-5`, Class 2 exactly
when `1e-5 ≤ phi < 1e-3`, and raises (returns `none`) exactly when
`phi ≥ 1e-3`; in particular `phi = 1e-7` classifies as Class 1 and
`phi = 9.999e-8` classifies as Class 0. -/
theorem odh_class_spec :
    (∀ phi : ℝ,
      (odh_class phi = some 0 ↔ phi < 1e-7) ∧
      (odh_class phi = some 1 ↔ 1e-7 ≤ phi ∧ phi < 1e-5) ∧
      (odh_class phi = some 2 ↔ 1e-5 ≤ phi ∧ phi < 1e-3) ∧
      (odh_class phi = none ↔ 1e-3 ≤ phi)) ∧
    odh_class 1e-7 = some 1 ∧ odh_class 9.999e-8 = some 0 := by
  have e1 : (1e-7 : ℝ) < 1e-5 := by norm_num
  have e2 : (1e-5 : ℝ) < 1e-3 := by norm_num
  refine ⟨fun phi => ?_, ?_, ?_⟩
  · unfold odh_class
    split_ifs with h1 h2 h3 <;>
      refine ⟨?_, ?_, ?_, ?_⟩ <;> simp_all <;> try intro h
    all_goals linarith
  · unfold odh_class
    norm_num
  · unfold odh_class
    norm_num

/-- C1 counterexample: with power-failure probability 0, isolation-valve
failure probability 1 and detection-failure probability 0 (all in `[0,1]`),
the factor computed by `PFD_system` is 1, while the claimed combination
`P(power-fail)*P(valve-fail) + P(power-ok)*P(detection-fail)` is 0. -/
theorem PFD_system_claim_counterexample :
    PFD_system [0, 1, 0] = 1 ∧
    (0 : ℝ) * 1 + (1 - 0) * 0 = 0 ∧
    PFD_system [0, 1, 0] ≠ (0 : ℝ) * 1 + (1 - 0) * 0 := by
  unfold PFD_system
  norm_num

/-- C1 amended: `PFD_system` combines element failure probabilities as one
minus the product of the non-failure probabilities: for a
power/valve/detection configuration it equals
`1 - (1-p)*(1-v)*(1-d)`, and for the code's actual two-element
power/detection configuration it equals `p + (1-p)*d`, which coincides with
the claimed mutually-exclusive formula only when the valve-failure
probability is 1 (no isolation valve modelled). -/
theorem PFD_system_formula (p v d : ℝ) :
    PFD_system [p, v, d] = 1 - (1 - p) * (1 - v) * (1 - d) ∧
    PFD_system [p, d] = p + (1 - p) * d := by
  unfold PFD_system
  constructor
  · simp [List.foldl]
  · simp [List.foldl]; ring

lemma fatality_formula_pos (c : ℝ) : 0 < fatality_formula c :=
  Real.rpow_pos_of_pos (by norm_num) _

lemma fatality_formula_lt_one {c : ℝ} (hc : 0.088 ≤ c) : fatality_formula c < 1 := by
  apply Real.rpow_lt_one_of_one_lt_of_neg (by norm_num)
  linarith

lemma fatality_formula_anti {c₁ c₂ : ℝ} (h : c₁ ≤ c₂) :
    fatality_formula c₂ ≤ fatality_formula c₁ := by
  apply (Real.rpow_le_rpow_left_iff (by norm_num : (1:ℝ) < 10)).mpr
  linarith

lemma fatality_prob_nonneg (c : ℝ) : 0 ≤ fatality_prob c := by
  unfold fatality_prob
  split_ifs with h1 h2
  · exact le_rfl
  · exact zero_le_one
  · exact (fatality_formula_pos c).le

/-- C2 counterexample: the hard-coded constants of the source do not solve
the two-point system: the interior log-linear formula evaluates at the
boundary concentrations to `10^(-7.00006)` and `10^(-0.000056)`, so it is
neither 0 at `C = 0.18` nor 1 at `C = 0.088` (indeed no power of 10 can be
0, so `F(0.18) = 0` with continuity at 0.18 is impossible for this form). -/
theorem fatality_formula_boundaries_counterexample :
    fatality_formula 0.18 ≠ 0 ∧ fatality_formula 0.088 ≠ 1 :=
  ⟨(fatality_formula_pos 0.18).ne',
   (fatality_formula_lt_one (by norm_num)).ne⟩

/-- C2 amended: the fatality mapping returns 0 for `C ≥ 0.18`, 1 for
`C ≤ 0.088` (both by explicit branch, not by continuity of the interior
formula), returns the hard-coded `10^(6.6956 - 76.087*C)` on
`(0.088, 0.18)`, and is non-increasing in `C` everywhere (hence on
`(0.088, 0.18)`); it is however not continuous at the boundary
concentrations, the interior formula taking the values recorded in the
counterexample there. -/
theorem fatality_prob_spec :
    (∀ c : ℝ, 0.18 ≤ c → fatality_prob c = 0) ∧
    (∀ c : ℝ, c ≤ 0.088 → fatality_prob c = 1) ∧
    (∀ c : ℝ, 0.088 < c → c < 0.18 → fatality_prob c = fatality_formula c) ∧
    (∀ c₁ c₂ : ℝ, c₁ ≤ c₂ → fatality_prob c₂ ≤ fatality_prob c₁) := by
  refine ⟨fun c hc => ?_, fun c hc => ?_, fun c h1 h2 => ?_, fun c₁ c₂ h => ?_⟩
  · unfold fatality_prob
    rw [if_pos hc]
  · unfold fatality_prob
    rw [if_neg (by linarith), if_pos hc]
  · unfold fatality_prob
    rw [if_neg (by linarith), if_neg (by linarith)]
  · by_cases H1 : 0.18 ≤ c₂
    · have hc2 : fatality_prob c₂ = 0 := by unfold fatality_prob; rw [if_pos H1]
      rw [hc2]; exact fatality_prob_nonneg c₁
    · by_cases H2 : c₂ ≤ 0.088
      · have hc2 : fatality_prob c₂ = 1 := by
          unfold fatality_prob; rw [if_neg H1, if_pos H2]
        have hc1 : fatality_prob c₁ = 1 := by
          unfold fatality_prob
          rw [if_neg (by linarith), if_pos (le_trans h H2)]
        rw [hc1, hc2]
      · have hc2 : fatality_prob c₂ = fatality_formula c₂ := by
          unfold fatality_prob; rw [if_neg H1, if_neg H2]
        rw [hc2]
        by_cases H3 : c₁ ≤ 0.088
        · have hc1 : fatality_prob c₁ = 1 := by
            unfold fatality_prob
            rw [if_neg (by linarith), if_pos H3]
          rw [hc1]
          exact (fatality_formula_lt_one (lt_of_not_le H2).le).le
        · have hc1 : fatality_prob c₁ = fatality_formula c₁ := by
            unfold fatality_prob
            rw [if_neg (by intro hx; exact H1 (le_trans hx (by linarith))), if_neg H3]
          rw [hc1]
          exact fatality_formula_anti h

/-- C2 witness: concrete evaluations of the amended fatality-mapping
properties. -/
theorem fatality_prob_spec_witness :
    fatality_prob 0.2 = 0 ∧ fatality_prob 0.05 = 1 ∧
    fatality_prob 0.1 = fatality_formula 0.1 ∧
    fatality_prob 0.12 ≤ fatality_prob 0.1 :=
  ⟨fatality_prob_spec.1 0.2 (by norm_num),
   fatality_prob_spec.2.1 0.05 (by norm_num),
   fatality_prob_spec.2.2.1 0.1 (by norm_num) (by norm_num),
   fatality_prob_spec.2.2.2 0.1 0.12 (by norm_num)⟩

/-- Embedding of `conc_vent` (ODH_class.py lines 372-389): instantaneous
oxygen concentration in a confined volume `V` with spill rate `R`, signed
ventilation rate `Q` and elapsed time `t` (all already converted to one
consistent unit system, as the source does before evaluating).  The three
branches mirror `if Q > 0`, `elif abs(Q) <= R`, `elif abs(Q) > R` (the
last condition is the complement of the second, so it is an `else`). -/
noncomputable def conc_vent (V R Q t : ℝ) : ℝ :=
  if 0 < Q then 0.21 / (Q + R) * (Q + R * Real.exp (-((Q + R) / V * t)))
  else if |Q| ≤ R then 0.21 * Real.exp (-(R / V * t))
  else 0.21 * (1 - R / |Q| * (1 - Real.exp (-(|Q| * t / V))))

/-- C5: `conc_vent` evaluates exactly one of three mutually exclusive
regimes with equality-inclusive boundaries at `Q = 0` and `|Q| = R`:
for `Q > 0` the fresh-air-injection closed form, for `Q ≤ 0` with
`|Q| ≤ R` the pure-dilution exponential, and for `Q ≤ 0` with `|Q| > R`
the extraction closed form; the three regime conditions are exhaustive. -/
theorem conc_vent_regimes (V R Q t : ℝ) :
    (0 < Q →
      conc_vent V R Q t = 0.21 / (Q + R) * (Q + R * Real.exp (-((Q + R) / V * t)))) ∧
    (Q ≤ 0 → |Q| ≤ R →
      conc_vent V R Q t = 0.21 * Real.exp (-(R / V * t))) ∧
    (Q ≤ 0 → R < |Q| →
      conc_vent V R Q t = 0.21 * (1 - R / |Q| * (1 - Real.exp (-(|Q| * t / V))))) ∧
    (0 < Q ∨ (Q ≤ 0 ∧ |Q| ≤ R) ∨ (Q ≤ 0 ∧ R < |Q|)) := by
  refine ⟨fun hQ => ?_, fun hQ hA => ?_, fun hQ hA => ?_, ?_⟩
  · unfold conc_vent; rw [if_pos hQ]
  · unfold conc_vent; rw [if_neg (not_lt.mpr hQ), if_pos hA]
  · unfold conc_vent; rw [if_neg (not_lt.mpr hQ), if_neg (not_le.mpr hA)]
  · rcases lt_or_le 0 Q with h | h
    · exact Or.inl h
    · rcases le_or_lt |Q| R with h2 | h2
      · exact Or.inr (Or.inl ⟨h, h2⟩)
      · exact Or.inr (Or.inr ⟨h, h2⟩)

/-- C5 witness: the fresh-air-injection regime evaluated at
`V = 3, R = 2, Q = 1, t = 4`. -/
theorem conc_vent_regimes_witness :
    conc_vent 3 2 1 4 = 0.21 / (1 + 2) * (1 + 2 * Real.exp (-((1 + 2) / 3 * 4))) :=
  (conc_vent_regimes 3 2 1 4).1 (by norm_num)

/-- C10: for positive volume, non-negative spill rate, arbitrary signed
ventilation rate and non-negative time, the concentration returned by
`conc_vent` is strictly positive and never exceeds the ambient oxygen
fraction 0.21. -/
theorem conc_vent_range (V R Q t : ℝ) (hV : 0 < V) (hR : 0 ≤ R) (ht : 0 ≤ t) :
    0 < conc_vent V R Q t ∧ conc_vent V R Q t ≤ 0.21 := by
  unfold conc_vent
  split_ifs with h1 h2
  · -- Q > 0: dilution towards the steady state 0.21*Q/(Q+R)
    have hQR : 0 < Q + R := by linarith
    have hE1 : Real.exp (-((Q + R) / V * t)) ≤ 1 := by
      rw [← Real.exp_zero]
      apply Real.exp_le_exp.mpr
      have : 0 ≤ (Q + R) / V * t := by positivity
      linarith
    have hE0 : 0 < Real.exp (-((Q + R) / V * t)) := Real.exp_pos _
    constructor
    · have hnum : 0 < Q + R * Real.exp (-((Q + R) / V * t)) := by positivity
      positivity
    · have hnum : Q + R * Real.exp (-((Q + R) / V * t)) ≤ Q + R := by nlinarith
      calc 0.21 / (Q + R) * (Q + R * Real.exp (-((Q + R) / V * t)))
          ≤ 0.21 / (Q + R) * (Q + R) := by
            apply mul_le_mul_of_nonneg_left hnum
            positivity
        _ = 0.21 := div_mul_cancel₀ 0.21 hQR.ne'
  · -- Q ≤ 0, |Q| ≤ R: pure dilution by the leak's own displacement
    have hE1 : Real.exp (-(R / V * t)) ≤ 1 := by
      rw [← Real.exp_zero]
      apply Real.exp_le_exp.mpr
      have : 0 ≤ R / V * t := by positivity
      linarith
    constructor
    · positivity
    · nlinarith [Real.exp_pos (-(R / V * t))]
  · -- Q ≤ 0, |Q| > R: extraction exceeds the leak rate
    have hA : R < |Q| := lt_of_not_le h2
    have hA0 : 0 < |Q| := lt_of_le_of_lt hR hA
    have hE1 : Real.exp (-(|Q| * t / V)) ≤ 1 := by
      rw [← Real.exp_zero]
      apply Real.exp_le_exp.mpr
      have : 0 ≤ |Q| * t / V := by positivity
      linarith
    have hE0 : 0 < Real.exp (-(|Q| * t / V)) := Real.exp_pos _
    have hfrac : R / |Q| < 1 := (div_lt_one hA0).mpr hA
    have hfrac0 : 0 ≤ R / |Q| := by positivity
    have hterm : R / |Q| * (1 - Real.exp (-(|Q| * t / V))) < 1 := by nlinarith
    have hterm0 : 0 ≤ R / |Q| * (1 - Real.exp (-(|Q| * t / V))) := by nlinarith
    constructor
    · nlinarith
    · nlinarith

/-- C10 witness: at volume 1, zero spill, zero ventilation and time 0 the
bounds hold. -/
theorem conc_vent_range_witness :
    0 < conc_vent 1 0 0 0 ∧ conc_vent 1 0 0 0 ≤ 0.21 :=
  conc_vent_range 1 0 0 0 (by norm_num) le_rfl le_rfl

/-- Embedding of `failure_on_demand` (ODH_class.py lines 294-303): with
`MDT = Test_period/2 + Mean_repair_time`, the probability of system
failure when `m` units out of `n` are required is
`((MDT*failure_rate*m)^(n+1-m))/(n+1-m)!`.  The subtraction `n+1-m` is
truncated natural subtraction; the source only ever calls this with
`m ≤ n`, where it agrees with the Python expression. -/
noncomputable def failure_on_demand (m n : ℕ)
    (Test_period Mean_repair_time failure_rate : ℝ) : ℝ :=
  let MDT := Test_period / 2 + Mean_repair_time
  (MDT * failure_rate * m) ^ (n + 1 - m) / (Nat.factorial (n + 1 - m))

/-- Loop body of `odh_volume.fan_fail` (ODH_class.py lines 188-199): the
Python loop runs `m = N_fans, N_fans-1, ..., 0`, threading `PFD_prev`
(initially 1) and inserting `(PFD_prev - PFD_fan, Q_fan*m)` at the front of
the list, so the final list is ordered by ascending fan count.  This
recursion produces the entries for counts `m, m-1, ..., 0` (in ascending
order) given the incoming `PFD_prev`. -/
noncomputable def fan_fail_from (Test_period Mean_repair_time Fail_rate Q_fan : ℝ)
    (N_fans : ℕ) : ℕ → ℝ → List (ℝ × ℝ)
  | 0 => fun PFD_prev =>
    [(PFD_prev - failure_on_demand 0 N_fans Test_period Mean_repair_time Fail_rate,
      Q_fan * ((0 : ℕ) : ℝ))]
  | m + 1 => fun PFD_prev =>
    fan_fail_from Test_period Mean_repair_time Fail_rate Q_fan N_fans m
        (failure_on_demand (m + 1) N_fans Test_period Mean_repair_time Fail_rate) ++
      [(PFD_prev - failure_on_demand (m + 1) N_fans Test_period Mean_repair_time Fail_rate,
        Q_fan * ((m + 1 : ℕ) : ℝ))]

/-- Embedding of `odh_volume.fan_fail` (ODH_class.py lines 188-199):
`(probability, flow)` pairs for all counts of working fans. -/
noncomputable def fan_fail (Test_period Mean_repair_time Fail_rate Q_fan : ℝ)
    (N_fans : ℕ) : List (ℝ × ℝ) :=
  fan_fail_from Test_period Mean_repair_time Fail_rate Q_fan N_fans N_fans 1

lemma failure_on_demand_zero (n : ℕ) (T MRT fr : ℝ) :
    failure_on_demand 0 n T MRT fr = 0 := by
  unfold failure_on_demand
  simp

lemma fan_fail_from_length (T MRT fr Qf : ℝ) (N : ℕ) :
    ∀ m prev, (fan_fail_from T MRT fr Qf N m prev).length = m + 1 := by
  intro m
  induction m with
  | zero => intro prev; rfl
  | succ k ih =>
    intro prev
    simp only [fan_fail_from, List.length_append, List.length_singleton, ih]

lemma fan_fail_from_sum (T MRT fr Qf : ℝ) (N : ℕ) :
    ∀ m prev, ((fan_fail_from T MRT fr Qf N m prev).map Prod.fst).sum =
      prev - failure_on_demand 0 N T MRT fr := by
  intro m
  induction m with
  | zero => intro prev; simp [fan_fail_from]
  | succ k ih =>
    intro prev
    simp only [fan_fail_from, List.map_append, List.sum_append, ih,
      List.map_cons, List.map_nil, List.sum_cons, List.sum_nil]
    ring

lemma failure_on_demand_mono (N : ℕ) (T MRT fr : ℝ) (m : ℕ) (hm : m + 1 ≤ N)
    (hT : 0 ≤ T) (hM : 0 ≤ MRT) (hf : 0 ≤ fr)
    (hs : (T / 2 + MRT) * fr * N ≤ 1) :
    failure_on_demand m N T MRT fr ≤ failure_on_demand (m + 1) N T MRT fr := by
  unfold failure_on_demand
  have hx : 0 ≤ (T / 2 + MRT) * fr := by positivity
  have hmN : (m : ℝ) ≤ (N : ℝ) := Nat.cast_le.mpr (le_trans (Nat.le_succ m) hm)
  have hxm0 : 0 ≤ (T / 2 + MRT) * fr * (m : ℝ) := by positivity
  have hxm1 : (T / 2 + MRT) * fr * (m : ℝ) ≤ 1 := by nlinarith
  have hle : (T / 2 + MRT) * fr * (m : ℝ) ≤ (T / 2 + MRT) * fr * ((m + 1 : ℕ) : ℝ) := by
    push_cast
    nlinarith
  have he1 : N + 1 - m = (N - m) + 1 := by omega
  have he2 : N + 1 - (m + 1) = N - m := by omega
  rw [he1, he2]
  have hpow : ((T / 2 + MRT) * fr * (m : ℝ)) ^ (N - m + 1) ≤
      ((T / 2 + MRT) * fr * ((m + 1 : ℕ) : ℝ)) ^ (N - m) := by
    rw [pow_succ]
    calc ((T / 2 + MRT) * fr * (m : ℝ)) ^ (N - m) * ((T / 2 + MRT) * fr * (m : ℝ))
        ≤ ((T / 2 + MRT) * fr * (m : ℝ)) ^ (N - m) * 1 := by
          apply mul_le_mul_of_nonneg_left hxm1 (pow_nonneg hxm0 _)
      _ = ((T / 2 + MRT) * fr * (m : ℝ)) ^ (N - m) := mul_one _
      _ ≤ ((T / 2 + MRT) * fr * ((m + 1 : ℕ) : ℝ)) ^ (N - m) :=
          pow_le_pow_left₀ hxm0 hle _
  apply div_le_div₀ (pow_nonneg (le_trans hxm0 hle) _) hpow
  · exact_mod_cast Nat.factorial_pos (N - m)
  · exact_mod_cast Nat.factorial_le (Nat.le_succ (N - m))

lemma failure_on_demand_top (N : ℕ) (T MRT fr : ℝ)
    (hs : (T / 2 + MRT) * fr * N ≤ 1) :
    failure_on_demand N N T MRT fr ≤ 1 := by
  unfold failure_on_demand
  have he : N + 1 - N = 1 := by omega
  rw [he]
  simpa using hs

lemma fan_fail_from_nonneg (T MRT fr Qf : ℝ) (N : ℕ)
    (hT : 0 ≤ T) (hM : 0 ≤ MRT) (hf : 0 ≤ fr)
    (hs : (T / 2 + MRT) * fr * N ≤ 1) :
    ∀ m, m ≤ N → ∀ prev, failure_on_demand m N T MRT fr ≤ prev →
      ∀ p ∈ fan_fail_from T MRT fr Qf N m prev, 0 ≤ p.1 := by
  intro m
  induction m with
  | zero =>
    intro _ prev hprev p hp
    rw [failure_on_demand_zero] at hprev
    simp only [fan_fail_from, List.mem_singleton] at hp
    subst hp
    simp only
    rw [failure_on_demand_zero]
    linarith
  | succ k ih =>
    intro hkN prev hprev p hp
    simp only [fan_fail_from, List.mem_append, List.mem_singleton] at hp
    rcases hp with hp | hp
    · exact ih (le_trans (Nat.le_succ k) hkN) _
        (failure_on_demand_mono N T MRT fr k hkN hT hM hf hs) p hp
    · subst hp
      simp only
      linarith

/-- C3 counterexample: with test period 4, zero mean repair time, per-fan
failure rate 1 and a single fan, the telescoping differences produce the
distribution `[(2, 0), (-1, 0)]`, whose second probability is negative:
the `failure_on_demand` formula is an approximation that exceeds 1 once
`MDT*rate*m > 1`, so non-negativity fails for these (extreme but
well-typed) parameters. -/
theorem fan_fail_negative_entry :
    ∃ p ∈ fan_fail 4 0 1 0 1, p.1 < 0 := by
  have hval : fan_fail 4 0 1 0 1 = [(2, 0), (-1, 0)] := by
    unfold fan_fail fan_fail_from failure_on_demand
    norm_num [Nat.factorial]
    unfold fan_fail_from failure_on_demand
    norm_num [Nat.factorial]
  rw [hval]
  exact ⟨(-1, 0), by simp, by norm_num⟩

/-- C3 amended: for every fan population `n` and non-negative failure
rate, test interval and mean repair time whose combined per-demand
failure probability satisfies `(T/2 + MRT)*rate*n ≤ 1` (true of any
realistic configuration; without it the approximate `failure_on_demand`
formula exceeds 1 and a difference can be negative, as the counterexample
shows), `fan_fail` produces `n+1` pairs whose probabilities are
non-negative and sum to exactly 1; the pair count and the sum do not even
need the bound. -/
theorem fan_fail_distribution (Test_period Mean_repair_time Fail_rate Q_fan : ℝ)
    (N_fans : ℕ) (hT : 0 ≤ Test_period) (hM : 0 ≤ Mean_repair_time)
    (hf : 0 ≤ Fail_rate)
    (hs : (Test_period / 2 + Mean_repair_time) * Fail_rate * N_fans ≤ 1) :
    (fan_fail Test_period Mean_repair_time Fail_rate Q_fan N_fans).length = N_fans + 1 ∧
    ((fan_fail Test_period Mean_repair_time Fail_rate Q_fan N_fans).map Prod.fst).sum = 1 ∧
    ∀ p ∈ fan_fail Test_period Mean_repair_time Fail_rate Q_fan N_fans, 0 ≤ p.1 := by
  refine ⟨fan_fail_from_length _ _ _ _ _ _ _, ?_, ?_⟩
  · rw [fan_fail, fan_fail_from_sum, failure_on_demand_zero]
    ring
  · exact fan_fail_from_nonneg Test_period Mean_repair_time Fail_rate Q_fan N_fans
      hT hM hf hs N_fans le_rfl 1
      (failure_on_demand_top N_fans Test_period Mean_repair_time Fail_rate hs)

/-- C3 witness: a concrete two-fan configuration with zero failure rate
gives three pairs, probabilities summing to 1 and all non-negative. -/
theorem fan_fail_distribution_witness :
    (fan_fail 0 0 0 1 2).length = 2 + 1 ∧
    ((fan_fail 0 0 0 1 2).map Prod.fst).sum = 1 ∧
    ∀ p ∈ fan_fail 0 0 0 1 2, 0 ≤ p.1 :=
  fan_fail_distribution 0 0 0 1 2 le_rfl le_rfl le_rfl (by norm_num)

/-- The six gas-line failure causes iterated by `odh_source.leak` for
`mode = 'gas line'` (ODH_class.py line 123). -/
inductive Cause
  | smallLeak
  | largeLeak
  | rupture
  | weldSmallLeak
  | weldLargeLeak
  | weldRupture
deriving DecidableEq

/-- Keys of the `self.Leaks` dictionary written by
`odh_source.calculate_gas_leak`: the Python code builds the key as the
cause name concatenated with `str(pipe.D_pipe(Pipe))`, so a key is a
cause tag together with the nominal pipe diameter. -/
inductive LeakKey
  | smallLeak (d : ℚ)
  | largeLeak (d : ℚ)
  | rupture (d : ℚ)
  | weldSmallLeak (d : ℚ)
  | weldLargeLeak (d : ℚ)
  | weldRupture (d : ℚ)
deriving DecidableEq

/-- Pipe quantities that the source obtains from the external piping
library: length `L`, nominal diameter `D_nom` (`pipe.D_pipe`), outer
diameter `OD`, wall thickness `wall` and bore area `area` (`pipe.Area`). -/
structure PipeData where
  L : ℚ
  D_nom : ℚ
  OD : ℚ
  wall : ℚ
  area : ℚ

/-- The `Leaks` dictionary of a source: map from key to the
`(failure_rate, standard_flow, duration)` triple. -/
def LeakMap : Type := LeakKey → Option (ℚ × ℚ × ℚ)

/-- Dictionary update `self.Leaks[cause] = v`. -/
def updateLeak (m : LeakMap) (k : LeakKey) (v : ℚ × ℚ × ℚ) : LeakMap :=
  fun k' => if k' = k then some v else m k'

/-- Embedding of `odh_source.calculate_gas_leak` (ODH_class.py lines
65-106).  `volume` is the source's gas-equivalent volume; `q_std` is the
external Flow Model composed with the flow cap,
`limit_flow(leak_flow(Fluid_data, Area), failure_mode)`, as a function of
the leak area (the fluid library is out of core scope and is supplied by
the caller).  Each recognized cause stores
`(Prob, q_std Area, volume / q_std Area)` under its key; the two large-leak
causes store nothing at all when the nominal diameter is at most 2
(`Area` stays `None` in the source, so the final `if Area:` write is
skipped). -/
def calculate_gas_leak (volume : ℚ) (q_std : ℚ → ℚ) (P : PipeData) (N_welds : ℚ)
    (cause : Cause) (Leaks : LeakMap) : LeakMap :=
  match cause with
  | .smallLeak =>
    updateLeak Leaks (.smallLeak P.D_nom)
      (P.L / 10 ^ 9, q_std 10, volume / q_std 10)
  | .largeLeak =>
    if 2 < P.D_nom then
      updateLeak Leaks (.largeLeak P.D_nom)
        (P.L / 10 ^ 10, q_std 1000, volume / q_std 1000)
    else Leaks
  | .rupture =>
    updateLeak Leaks (.rupture P.D_nom)
      (3 * P.L / 10 ^ 11, q_std P.area, volume / q_std P.area)
  | .weldSmallLeak =>
    updateLeak Leaks (.weldSmallLeak P.D_nom)
      (N_welds * 2 / 10 ^ 11 * P.OD / P.wall, q_std 10, volume / q_std 10)
  | .weldLargeLeak =>
    if 2 < P.D_nom then
      updateLeak Leaks (.weldLargeLeak P.D_nom)
        (N_welds * 2 / 10 ^ 12 * P.OD / P.wall, q_std 1000, volume / q_std 1000)
    else Leaks
  | .weldRupture =>
    updateLeak Leaks (.weldRupture P.D_nom)
      (N_welds * 6 / 10 ^ 13 * P.OD / P.wall, q_std P.area, volume / q_std P.area)

/-- Embedding of the `'gas line'` branch of `odh_source.leak`
(ODH_class.py lines 122-125): all six causes are processed in order. -/
def leak_gas_line (volume : ℚ) (q_std : ℚ → ℚ) (P : PipeData) (N_welds : ℚ)
    (Leaks : LeakMap) : LeakMap :=
  [Cause.smallLeak, Cause.largeLeak, Cause.rupture, Cause.weldSmallLeak,
    Cause.weldLargeLeak, Cause.weldRupture].foldl
    (fun L c => calculate_gas_leak volume q_std P N_welds c L) Leaks

/-- The empty `Leaks` dictionary a fresh source starts with. -/
def emptyLeaks : LeakMap := fun _ => none

/-- C6: for a gas-line failure mode with all other parameters held
constant, the piping large-leak cause (and the weld large-leak cause)
leaves the leak map completely unchanged when the nominal diameter is at
most 2, so the cause is entirely absent from a fresh source's map, while
for nominal diameter above 2 both causes are present in the map. -/
theorem large_leak_threshold (volume : ℚ) (q_std : ℚ → ℚ) (P : PipeData)
    (N_welds : ℚ) (Leaks : LeakMap) :
    (P.D_nom ≤ 2 →
      calculate_gas_leak volume q_std P N_welds Cause.largeLeak Leaks = Leaks ∧
      calculate_gas_leak volume q_std P N_welds Cause.weldLargeLeak Leaks = Leaks ∧
      (∀ d, leak_gas_line volume q_std P N_welds emptyLeaks (LeakKey.largeLeak d)
        = none) ∧
      (∀ d, leak_gas_line volume q_std P N_welds emptyLeaks (LeakKey.weldLargeLeak d)
        = none)) ∧
    (2 < P.D_nom →
      (leak_gas_line volume q_std P N_welds emptyLeaks
        (LeakKey.largeLeak P.D_nom)).isSome = true ∧
      (leak_gas_line volume q_std P N_welds emptyLeaks
        (LeakKey.weldLargeLeak P.D_nom)).isSome = true) := by
  constructor
  · intro hD
    have hD' : ¬ (2 < P.D_nom) := not_lt.mpr hD
    refine ⟨?_, ?_, ?_, ?_⟩
    · simp [calculate_gas_leak, hD']
    · simp [calculate_gas_leak, hD']
    · intro d
      simp [leak_gas_line, calculate_gas_leak, hD', updateLeak, emptyLeaks]
    · intro d
      simp [leak_gas_line, calculate_gas_leak, hD', updateLeak, emptyLeaks]
  · intro hD
    constructor
    · simp [leak_gas_line, calculate_gas_leak, hD, updateLeak, emptyLeaks]
    · simp [leak_gas_line, calculate_gas_leak, hD, updateLeak, emptyLeaks]

/-- C6 witness: a 2-inch pipe stores no large-leak entry at all, while an
otherwise identical 3-inch pipe has both large-leak entries in its map. -/
theorem large_leak_threshold_witness :
    calculate_gas_leak 1 (fun _ => 1) ⟨10, 2, 5, 1, 7⟩ 4 Cause.largeLeak emptyLeaks
      = emptyLeaks ∧
    leak_gas_line 1 (fun _ => 1) ⟨10, 2, 5, 1, 7⟩ 4 emptyLeaks (LeakKey.largeLeak 2)
      = none ∧
    (leak_gas_line 1 (fun _ => 1) ⟨10, 3, 5, 1, 7⟩ 4 emptyLeaks
      (LeakKey.largeLeak 3)).isSome = true ∧
    (leak_gas_line 1 (fun _ => 1) ⟨10, 3, 5, 1, 7⟩ 4 emptyLeaks
      (LeakKey.weldLargeLeak 3)).isSome = true :=
  ⟨((large_leak_threshold 1 (fun _ => 1) ⟨10, 2, 5, 1, 7⟩ 4 emptyLeaks).1
      (by norm_num)).1,
   (((large_leak_threshold 1 (fun _ => 1) ⟨10, 2, 5, 1, 7⟩ 4 emptyLeaks).1
      (by norm_num)).2.2.1) 2,
   ((large_leak_threshold 1 (fun _ => 1) ⟨10, 3, 5, 1, 7⟩ 4 emptyLeaks).2
      (by norm_num)).1,
   ((large_leak_threshold 1 (fun _ => 1) ⟨10, 3, 5, 1, 7⟩ 4 emptyLeaks).2
      (by norm_num)).2⟩

/-- One entry of a source's `Leaks` dictionary as consumed by
`odh_volume.odh`: the `(P_leak, q_leak, tau)` triple.  The code has no
null-rate representation: a constant/ongoing leak is stored by the
`'other'` branch of `odh_source.leak` (line 154) with `rate = 1`
(certainty), and is processed by the aggregator like any rated leak. -/
structure Leak where
  rate : ℝ
  q : ℝ
  tau : ℝ

/-- An inert-gas source as seen by the aggregator: its fluid identity and
the values of its `Leaks` dictionary (the aggregation only folds over the
entries, so the keys are immaterial here). -/
structure Source where
  fluid : String
  Leaks : List Leak

/-- State of an `odh_volume` object.  `Fan_flowrates = none` models the
attribute never having been set by `fan_fail`; `PFD_system = none` models
the `PFD_system` method never having been invoked, in which case the
Python attribute lookup `self.PFD_system` yields the bound method itself
(the method always exists, so `hasattr(self, 'PFD_system')` is true
regardless). -/
structure Volume where
  Fluids : List String
  volume : ℝ
  Fan_flowrates : Option (List (ℝ × ℝ))
  PFD_system : Option ℝ
  phi : ℝ

/-- Per-leak contribution inside `odh_volume.odh` (ODH_class.py lines
238-275).  When the system-failure probability was never computed,
line 240 evaluates `P_leak*self.PFD_system` with `self.PFD_system` still
the bound method, which raises a `TypeError` — not the explicit message of
line 273, whose guard `hasattr(self, 'PFD_system')` is always true (it
names the method) and is therefore unreachable.  When the fan-state
distribution is missing, line 275 raises the explicit fan exception
(after the no-vent contribution was already added to the running `phi`,
but before any result is produced, since the exception aborts `odh`). -/
noncomputable def leak_phi (v : Volume) (l : Leak) : Except String ℝ :=
  match v.PFD_system with
  | none => .error "TypeError"
  | some pfd =>
    match v.Fan_flowrates with
    | none => .error "Need to calculate Fan flowrates first"
    | some ffr =>
      .ok (l.rate * pfd * fatality_prob (conc_vent v.volume l.q 0 l.tau) +
        (ffr.map (fun pq => l.rate * (1 - pfd) * pq.1 *
          fatality_prob (conc_vent v.volume l.q pq.2 l.tau))).sum)

/-- Accumulation of the per-leak contributions of one source
(the inner loop of `odh_volume.odh`). -/
noncomputable def sum_leaks (v : Volume) : List Leak → ℝ → Except String ℝ
  | [] => fun acc => .ok acc
  | l :: ls => fun acc =>
    match leak_phi v l with
    | .error e => .error e
    | .ok c => sum_leaks v ls (acc + c)

/-- The outer loop of `odh_volume.odh` over the sources: a source only
contributes when its fluid is among the fluids the volume is sensitive
to. -/
noncomputable def odh_phi_from (v : Volume) : List Source → ℝ → Except String ℝ
  | [] => fun acc => .ok acc
  | s :: ss => fun acc =>
    if s.fluid ∈ v.Fluids then
      match sum_leaks v s.Leaks acc with
      | .error e => .error e
      | .ok acc2 => odh_phi_from v ss acc2
    else odh_phi_from v ss acc

/-- The fatality rate computed by `odh_volume.odh` (ODH_class.py lines
231-278): `self.phi` is reset to 0 at entry and accumulated from
scratch. -/
noncomputable def odh_phi (v : Volume) (sources : List Source) : Except String ℝ :=
  odh_phi_from v sources 0

/-- Embedding of `odh_volume.odh` including the final classification: the
method prints `self.odh_class()`, which raises when the rate exceeds the
top threshold, so a too-high rate makes the whole call fail. -/
noncomputable def odh (v : Volume) (sources : List Source) : Except String Volume :=
  match odh_phi v sources with
  | .error e => .error e
  | .ok phi =>
    match odh_class phi with
    | some _ => .ok { v with phi := phi }
    | none => .error "ODH fatality rate is too high. Please, check calculations"

lemma leak_phi_phi (v : Volume) (x : ℝ) (l : Leak) :
    leak_phi { v with phi := x } l = leak_phi v l := by
  cases v; rfl

lemma sum_leaks_phi (v : Volume) (x : ℝ) :
    ∀ ls acc, sum_leaks { v with phi := x } ls acc = sum_leaks v ls acc := by
  intro ls
  induction ls with
  | nil => intro acc; rfl
  | cons l ls ih =>
    intro acc
    simp only [sum_leaks, leak_phi_phi]
    cases leak_phi v l with
    | error e => rfl
    | ok c => exact ih (acc + c)

lemma odh_phi_from_phi (v : Volume) (x : ℝ) :
    ∀ ss acc, odh_phi_from { v with phi := x } ss acc = odh_phi_from v ss acc := by
  intro ss
  induction ss with
  | nil => intro acc; rfl
  | cons s ss ih =>
    intro acc
    have hfl : ({ v with phi := x } : Volume).Fluids = v.Fluids := by cases v; rfl
    simp only [odh_phi_from, hfl, sum_leaks_phi, ih]

lemma odh_phi_phi (v : Volume) (x : ℝ) (sources : List Source) :
    odh_phi { v with phi := x } sources = odh_phi v sources :=
  odh_phi_from_phi v x sources 0

/-- C9: the aggregator is idempotent: if a run on a volume succeeds and
yields the updated volume `r`, a second run on `r` with the same sources
yields exactly `r` again — `phi` is recomputed from scratch at the start
of each run (the computation never reads the incoming `phi`), not
accumulated across runs. -/
theorem odh_idempotent (v : Volume) (sources : List Source) (r : Volume)
    (h : odh v sources = .ok r) : odh r sources = .ok r := by
  unfold odh at h ⊢
  revert h
  cases hphi : odh_phi v sources with
  | error e => intro h; simp at h
  | ok phi =>
    cases hcl : odh_class phi with
    | none => intro h; simp [hcl] at h
    | some k =>
      intro h
      simp only [hcl, Except.ok.injEq] at h
      subst h
      rw [odh_phi_phi v phi sources, hphi]
      simp [hcl]

/-- C9 witness: a concrete configured volume with no sources aggregates to
itself (rate 0, class 0), and a second run returns the identical state. -/
theorem odh_idempotent_witness :
    odh ⟨["helium"], 1, some [], some (1e-4), 0⟩ [] =
      .ok ⟨["helium"], 1, some [], some (1e-4), 0⟩ :=
  odh_idempotent ⟨["helium"], 1, some [], some (1e-4), 0⟩ []
    ⟨["helium"], 1, some [], some (1e-4), 0⟩ (by
      unfold odh odh_phi odh_phi_from odh_class
      norm_num)

/-- C8: evaluating the aggregator at the failing inputs.  With the
system-failure probability never configured, the run fails with the
generic `TypeError` of line 240 (multiplying the failure rate by the
still-unbound method attribute), not with the distinct explicit
precondition message, which is unreachable because
`hasattr(self, 'PFD_system')` always finds the method; with the
system-failure probability configured but no fan-state distribution
attached, the run fails with the distinct explicit fan message, before
any result is produced. -/
theorem odh_precondition_behaviour :
    odh_phi ⟨["helium"], 1, some [(1, 0)], none, 0⟩ [⟨"helium", [⟨1, 1, 1⟩]⟩]
      = .error "TypeError" ∧
    odh_phi ⟨["helium"], 1, none, some (1e-4), 0⟩ [⟨"helium", [⟨1, 1, 1⟩]⟩]
      = .error "Need to calculate Fan flowrates first" ∧
    "TypeError" ≠ "Need to calculate ODH system failure probability first" :=
  ⟨rfl, rfl, by decide⟩

/-- C7 counterexample: a source holding a single constant leak (stored, as
the `'other'` branch stores certainty, with rate 1) whose fatality
probability is 1, aggregated over a configured volume, contributes fully:
the resulting rate is 1, not 0 — the contribution is not omitted, and the
aggregator's output carries no flagged-condition information at all. -/
theorem constant_leak_not_omitted :
    odh_phi ⟨["helium"], 1, some [(1, 0)], some (1/2), 0⟩
      [⟨"helium", [⟨1, 1, 1⟩]⟩] = .ok 1 ∧ (1 : ℝ) ≠ 0 := by
  constructor
  · have hc : conc_vent 1 1 0 1 = 0.21 * Real.exp (-1) := by
      unfold conc_vent
      rw [if_neg (by norm_num), if_pos (by norm_num)]
      norm_num
    have hb : (0.21 : ℝ) * Real.exp (-1) ≤ 0.088 := by
      rw [Real.exp_neg]
      have h1 := Real.exp_one_gt_d9
      have h2 : (0 : ℝ) < (Real.exp 1)⁻¹ := inv_pos.mpr (Real.exp_pos 1)
      have h3 : Real.exp 1 * (Real.exp 1)⁻¹ = 1 :=
        mul_inv_cancel₀ (Real.exp_pos 1).ne'
      nlinarith
    have hF : fatality_prob (0.21 * Real.exp (-1)) = 1 := by
      unfold fatality_prob
      rw [if_neg (by linarith), if_pos hb]
    simp [odh_phi, odh_phi_from, sum_leaks, leak_phi, hc, hF]
  · norm_num

/-- C7 amended: the aggregator has no special handling for constant
leaks: a leak stored with rate 1 (the code's representation of a
certain/ongoing failure) contributes
`pfd*F(no-vent concentration) + sum of fan-state terms` to the rate
exactly like a rated leak, and no flagged condition is surfaced — the
aggregation result is just the accumulated rate. -/
theorem constant_leak_included (v : Volume) (f : String) (l : Leak) (pfd : ℝ)
    (ffr : List (ℝ × ℝ)) (hp : v.PFD_system = some pfd)
    (hf : v.Fan_flowrates = some ffr) (hm : f ∈ v.Fluids) (hr : l.rate = 1) :
    odh_phi v [⟨f, [l]⟩] =
      .ok (pfd * fatality_prob (conc_vent v.volume l.q 0 l.tau) +
        (ffr.map (fun pq => (1 - pfd) * pq.1 *
          fatality_prob (conc_vent v.volume l.q pq.2 l.tau))).sum) := by
  simp [odh_phi, odh_phi_from, sum_leaks, leak_phi, hp, hf, hm, hr]

/-- C7 witness: the amended statement evaluated at a concrete configured
volume and a concrete constant leak of duration 0 (ambient concentration,
fatality probability 0, contribution 0). -/
theorem constant_leak_included_witness :
    odh_phi ⟨["helium"], 1, some [(1, 0)], some (1/2), 0⟩
      [⟨"helium", [⟨1, 1, 0⟩]⟩] = .ok 0 := by
  have h := constant_leak_included ⟨["helium"], 1, some [(1, 0)], some (1/2), 0⟩
    "helium" ⟨1, 1, 0⟩ (1/2) [(1, 0)] rfl rfl (by simp) rfl
  rw [h]
  have hc : conc_vent 1 1 0 0 = 0.21 := by
    unfold conc_vent
    rw [if_neg (by norm_num), if_pos (by norm_num)]
    norm_num
  have hF : fatality_prob 0.21 = 0 := by
    unfold fatality_prob
    rw [if_pos (by norm_num)]
  simp [hc, hF]

end ODH
